import Mathlib

/-!
Shallow embedding of the meat-curer repository: the SHT31 sensor driver
(src/curer/sht31.py) and the Flask HTTP layer (src/curer/app.py).

Machine integers are modelled as Nat with explicit masking where the Python
code masks; sensor frames are records of byte fields; the float NaN sentinel
is modelled as `none` in `Option ℚ` and finite float values as exact
rationals; bus I/O is modelled as event traces; Python exceptions are
modelled with `Except`.
-/

namespace Curer

/-! Constants from src/curer/sht31.py -/

def SHT31_I2CADDR : Nat := 0x44

def SHT31_MEAS_HIGHREP_STRETCH : Nat := 0x2C06

def SHT31_MEAS_MEDREP_STRETCH : Nat := 0x2C0D

def SHT31_MEAS_LOWREP_STRETCH : Nat := 0x2C10

def SHT31_MEAS_HIGHREP : Nat := 0x2400

def SHT31_MEAS_MEDREP : Nat := 0x240B

def SHT31_MEAS_LOWREP : Nat := 0x2416

def SHT31_READSTATUS : Nat := 0xF32D

def SHT31_CLEARSTATUS : Nat := 0x3041

def SHT31_SOFTRESET : Nat := 0x30A2

def SHT31_HEATER_ON : Nat := 0x306D

def SHT31_HEATER_OFF : Nat := 0x3066

def SHT31_STATUS_DATA_CRC_ERROR : Nat := 0x0001

def SHT31_STATUS_COMMAND_ERROR : Nat := 0x0002

def SHT31_STATUS_RESET_DETECTED : Nat := 0x0010

def SHT31_STATUS_TEMPERATURE_ALERT : Nat := 0x0400

def SHT31_STATUS_HUMIDITY_ALERT : Nat := 0x0800

def SHT31_STATUS_HEATER_ACTIVE : Nat := 0x2000

def SHT31_STATUS_ALERT_PENDING : Nat := 0x8000

def I2C_DEVICE_BUS : Nat := 1

namespace SHT31

/-- One iteration of the inner loop of `SHT31._crc8`: Python keeps the
register as an unbounded int, testing only bit 7 and masking at the end. -/
def crcRound (crc : Nat) : Nat :=
  if crc &&& 0x80 ≠ 0 then (crc <<< 1) ^^^ 0x31 else crc <<< 1

/-- The inner `for i in range(8, 0, -1)` loop of `SHT31._crc8`, n iterations. -/
def crcRounds : Nat → Nat → Nat
  | 0, crc => crc
  | n + 1, crc => crcRounds n (crcRound crc)

/-- One iteration of the outer loop of `SHT31._crc8`: XOR the byte into the
register, then run the inner loop 8 times. -/
def crcFold (crc b : Nat) : Nat := crcRounds 8 (crc ^^^ b)

/-- Embedding of `SHT31._crc8`: register starts at 0xFF, each input byte is
folded in, and the result is the low 8 bits of the final register. -/
def crc8 (buffer : List Nat) : Nat := (buffer.foldl crcFold 0xFF) &&& 0xFF

/-- Modelled from the spec (section 4.1) as the reference algorithm: one
inner-loop step of CRC-8 with polynomial 0x31, most-significant-bit-first,
keeping the running register 8 bits wide at every step. -/
def crcRoundSpec (crc : Nat) : Nat :=
  if crc &&& 0x80 ≠ 0 then ((crc <<< 1) ^^^ 0x31) &&& 0xFF else (crc <<< 1) &&& 0xFF

/-- n masked inner-loop steps of the reference algorithm. -/
def crcRoundsSpec : Nat → Nat → Nat
  | 0, crc => crc
  | n + 1, crc => crcRoundsSpec n (crcRoundSpec crc)

/-- Modelled from the spec (section 4.1): reference CRC-8, polynomial 0x31,
initial register 0xFF, most-significant-bit-first, no input or output
reflection, no final XOR; the register is 8 bits wide throughout, so its
low 8 bits are the register itself. -/
def crc8Spec (buffer : List Nat) : Nat :=
  buffer.foldl (fun crc b => crcRoundsSpec 8 (crc ^^^ b)) 0xFF

/-! Frames returned by the bus transport. -/

/-- A 6-byte measurement frame, as returned by `_readBytes(0, 6)`. -/
structure Frame6 where
  b0 : Nat
  b1 : Nat
  b2 : Nat
  b3 : Nat
  b4 : Nat
  b5 : Nat
deriving DecidableEq

/-- A 3-byte status frame, as returned by `_readBytes(0, 3)`. -/
structure Frame3 where
  b0 : Nat
  b1 : Nat
  b2 : Nat
deriving DecidableEq

/-- Embedding of the decode part of `SHT31.read_temperature_humidity` as a
function of the 6-byte frame delivered by the bus. The Python float NaN
sentinel is `none`; finite values are exact rationals. The two `if` tests
mirror the source: a temperature CRC mismatch returns before the humidity
check, and a humidity CRC mismatch also returns the pair of sentinels. -/
def read_temperature_humidity (f : Frame6) : Option ℚ × Option ℚ :=
  if f.b2 ≠ crc8 [f.b0, f.b1] then (none, none)
  else
    let rawTemperature : Nat := f.b0 <<< 8 ||| f.b1
    let temperature : ℚ := 175 * (rawTemperature : ℚ) / 0xFFFF - 45
    if f.b5 ≠ crc8 [f.b3, f.b4] then (none, none)
    else
      let rawHumidity : Nat := f.b3 <<< 8 ||| f.b4
      let humidity : ℚ := 100 * (rawHumidity : ℚ) / 0xFFFF
      (some temperature, some humidity)

/-- Embedding of `SHT31.read_temperature`: a full combined read, discarding
the humidity component. -/
def read_temperature (f : Frame6) : Option ℚ :=
  (read_temperature_humidity f).1

/-- Embedding of `SHT31.read_humidity`: a full combined read, discarding
the temperature component. -/
def read_humidity (f : Frame6) : Option ℚ :=
  (read_temperature_humidity f).2

/-- Embedding of the decode part of `SHT31.read_status` as a function of the
3-byte frame delivered by the bus: `none` models the Python `None` return. -/
def read_status (f : Frame3) : Option Nat :=
  let stat : Nat := f.b0 <<< 8 ||| f.b1
  if f.b2 ≠ crc8 [f.b0, f.b1] then none else some stat

/-- Shared shape of the seven predicate methods, each of which is
`bool(self.read_status() & MASK)` in the source. When `read_status` returns
`None`, the Python expression `None & MASK` raises a TypeError, which
propagates to the caller; that propagated failure is modelled as `none`. -/
def statusBit (f : Frame3) (mask : Nat) : Option Bool :=
  (read_status f).map (fun stat => (stat &&& mask) != 0)

/-- Embedding of `SHT31.is_data_crc_error`. -/
def is_data_crc_error (f : Frame3) : Option Bool :=
  statusBit f SHT31_STATUS_DATA_CRC_ERROR

/-- Embedding of `SHT31.is_command_error`. -/
def is_command_error (f : Frame3) : Option Bool :=
  statusBit f SHT31_STATUS_COMMAND_ERROR

/-- Embedding of `SHT31.is_reset_detected`. -/
def is_reset_detected (f : Frame3) : Option Bool :=
  statusBit f SHT31_STATUS_RESET_DETECTED

/-- Embedding of `SHT31.is_tracking_temperature_alert`. -/
def is_tracking_temperature_alert (f : Frame3) : Option Bool :=
  statusBit f SHT31_STATUS_TEMPERATURE_ALERT

/-- Embedding of `SHT31.is_tracking_humidity_alert`. -/
def is_tracking_humidity_alert (f : Frame3) : Option Bool :=
  statusBit f SHT31_STATUS_HUMIDITY_ALERT

/-- Embedding of `SHT31.is_heater_active`. -/
def is_heater_active (f : Frame3) : Option Bool :=
  statusBit f SHT31_STATUS_HEATER_ACTIVE

/-- Embedding of `SHT31.is_alert_pending`. -/
def is_alert_pending (f : Frame3) : Option Bool :=
  statusBit f SHT31_STATUS_ALERT_PENDING

/-! Bus-level I/O, modelled as event traces. -/

/-- One observable action on the I2C bus or the clock. `write` is
`smbus.write_byte_data(address, register, data)`, `readBlock` is
`smbus.read_i2c_block_data(address, register, length)`, `sleepMs` is
`time.sleep` in milliseconds. -/
inductive BusEvent where
  | write (address register data : Nat)
  | sleepMs (ms : Nat)
  | readBlock (address register length : Nat)
deriving DecidableEq

/-- Embedding of `SHT31._writeCommand`: a single
`write_byte_data(address, cmd >> 8, cmd & 0xFF)` call. -/
def writeCommandTrace (address cmd : Nat) : List BusEvent :=
  [.write address (cmd >>> 8) (cmd &&& 0xFF)]

/-- Bus trace of `SHT31.read_temperature_humidity`: write MeasureHighRep,
sleep 15 ms, then one 6-byte block read at register 0. -/
def read_temperature_humidity_trace (address : Nat) : List BusEvent :=
  writeCommandTrace address SHT31_MEAS_HIGHREP ++ [.sleepMs 15, .readBlock address 0 6]

/-- Bus trace of `SHT31.read_temperature`: the body is exactly one call to
`read_temperature_humidity`, so the trace is that of the call. -/
def read_temperature_trace (address : Nat) : List BusEvent :=
  read_temperature_humidity_trace address

/-- Bus trace of `SHT31.read_humidity`: the body is exactly one call to
`read_temperature_humidity`, so the trace is that of the call. -/
def read_humidity_trace (address : Nat) : List BusEvent :=
  read_temperature_humidity_trace address

/-! Driver construction. -/

/-- Driver state established by `SHT31.__init__`: the stored device address
and the bus index passed to `smbus.SMBus`. -/
structure DriverState where
  address : Nat
  deviceBus : Nat
deriving DecidableEq

/-- Embedding of `SHT31.__init__`. In the source the defaults are
`address=SHT31_I2CADDR, i2c=I2C_DEVICE_BUS`; the body stores `address` but
opens `smbus.SMBus(I2C_DEVICE_BUS)`, never reading the `i2c` parameter. -/
def init (address : Nat) (i2c : Nat) : DriverState :=
  { address := address, deviceBus := I2C_DEVICE_BUS }

end SHT31

/-! Embedding of src/curer/app.py. -/

namespace App

/-- A Python runtime error class relevant to this module. -/
inductive PyError where
  | typeError
deriving DecidableEq

/-- The Python values that flow through `get_measurement`. `method` is a
bound method object (an attribute accessed without a call), `nanFloat` the
float NaN, `num` a finite float modelled as a rational, `pynone` the value
`None`, and `tup` a 2-tuple. -/
inductive PyVal where
  | num (q : ℚ)
  | nanFloat
  | pynone
  | method
  | tup (a b : PyVal)
deriving DecidableEq

/-- The expression `sensor.read_temperature_humidity` in `get_measurement`:
attribute access without parentheses yields the bound method object itself,
not the result of calling it. -/
def sensorReadAttr : PyVal := PyVal.method

/-- Python tuple unpacking `x, y = v`: succeeds only when `v` is a 2-tuple;
unpacking a non-iterable such as a bound method raises a TypeError. -/
def pyUnpack2 (v : PyVal) : Except PyError (PyVal × PyVal) :=
  match v with
  | .tup a b => .ok (a, b)
  | _ => .error .typeError

/-- The module-level mutable state of app.py. -/
structure AppState where
  last_measurement : PyVal
  last_measurement_time : Option Nat
deriving DecidableEq

/-- Initial module state: `last_measurement = (None, None)`,
`last_measurement_time = None`. -/
def initialAppState : AppState :=
  { last_measurement := .tup .pynone .pynone, last_measurement_time := none }

/-- Embedding of `get_measurement`. It unpacks
`sensor.read_temperature_humidity` (the bound method, not a call), which
raises a TypeError before any sensor traffic; on the (unreachable) success
path it would store `(humidity, temperature)` — note the swap — update the
timestamp, and return that pair. The result carries the returned value or
the raised error, the module state after the call, and the bus events
produced. -/
def get_measurement (st : AppState) (now : Nat) :
    Except PyError (PyVal × PyVal) × AppState × List SHT31.BusEvent :=
  match pyUnpack2 sensorReadAttr with
  | .error e => (.error e, st, [])
  | .ok (temperature, humidity) =>
      (.ok (humidity, temperature),
       { last_measurement := .tup humidity temperature,
         last_measurement_time := some now },
       [])

/-- The JSON document produced by a route handler. -/
structure JsonDoc where
  name : String
  temperature : Option PyVal
  humidity : Option PyVal
  timestamp : Option Nat
deriving DecidableEq

/-- Embedding of the `/api/v1/temperature` route handler `get_temperature`:
`temperature = get_measurement()[0]`, then a JSON document with fields
name, temperature and timestamp. A raised error propagates. -/
def get_temperature (st : AppState) (now : Nat) (sensor_name : String) :
    Except PyError JsonDoc × AppState × List SHT31.BusEvent :=
  match get_measurement st now with
  | (.error e, st2, evs) => (.error e, st2, evs)
  | (.ok m, st2, evs) =>
      (.ok { name := sensor_name, temperature := some m.1, humidity := none,
             timestamp := st2.last_measurement_time },
       st2, evs)

/-- Embedding of the `/api/v1/humidity` route handler `get_humidity`:
`humidity = get_measurement()[1]`, then a JSON document with fields
name, humidity and timestamp. A raised error propagates. -/
def get_humidity (st : AppState) (now : Nat) (sensor_name : String) :
    Except PyError JsonDoc × AppState × List SHT31.BusEvent :=
  match get_measurement st now with
  | (.error e, st2, evs) => (.error e, st2, evs)
  | (.ok m, st2, evs) =>
      (.ok { name := sensor_name, temperature := none, humidity := some m.2,
             timestamp := st2.last_measurement_time },
       st2, evs)

end App

/-! Helper lemmas shared by several theorems. -/

open SHT31 App

theorem and255_eq_mod (x : Nat) : x &&& 0xFF = x % 256 := by
  have h := Nat.and_pow_two_sub_one_eq_mod x 8
  norm_num at h
  exact h

theorem shift_mask (c : Nat) : ((c &&& 0xFF) <<< 1) &&& 0xFF = (c <<< 1) &&& 0xFF := by
  rw [Nat.shiftLeft_eq, Nat.shiftLeft_eq, and255_eq_mod, and255_eq_mod, and255_eq_mod]
  omega

theorem and255_and128 (c : Nat) : (c &&& 0xFF) &&& 0x80 = c &&& 0x80 := by
  rw [Nat.and_assoc]
  have h : (0xFF &&& 0x80 : Nat) = 0x80 := by decide
  rw [h]

theorem crcRound_mask (c : Nat) : crcRound c &&& 0xFF = crcRoundSpec (c &&& 0xFF) := by
  unfold crcRound crcRoundSpec
  rw [and255_and128]
  by_cases h : c &&& 0x80 ≠ 0
  · rw [if_pos h, if_pos h]
    rw [Nat.and_xor_distrib_right, Nat.and_xor_distrib_right, shift_mask]
  · rw [if_neg h, if_neg h]
    rw [shift_mask]

theorem crcRounds_mask (n : Nat) : ∀ c, crcRounds n c &&& 0xFF = crcRoundsSpec n (c &&& 0xFF) := by
  induction n with
  | zero => intro c; rfl
  | succ n ih =>
    intro c
    show crcRounds n (crcRound c) &&& 0xFF = crcRoundsSpec n (crcRoundSpec (c &&& 0xFF))
    rw [ih, crcRound_mask]

theorem crcFold_mask (c b : Nat) (hb : b < 256) :
    crcFold c b &&& 0xFF = crcRoundsSpec 8 ((c &&& 0xFF) ^^^ b) := by
  unfold crcFold
  rw [crcRounds_mask, Nat.and_xor_distrib_right]
  congr 2
  rw [and255_eq_mod]
  omega

theorem foldl_crc_mask (l : List Nat) (hl : ∀ b ∈ l, b < 256) :
    ∀ c, (l.foldl crcFold c) &&& 0xFF =
      l.foldl (fun crc b => crcRoundsSpec 8 (crc ^^^ b)) (c &&& 0xFF) := by
  induction l with
  | nil => intro c; rfl
  | cons b l ih =>
    intro c
    have hb : b < 256 := hl b (List.mem_cons_self b l)
    have hl2 : ∀ x ∈ l, x < 256 := fun x hx => hl x (List.mem_cons_of_mem b hx)
    show (l.foldl crcFold (crcFold c b)) &&& 0xFF = _
    rw [ih hl2, crcFold_mask c b hb, List.foldl_cons]

/-- The source CRC agrees with the spec reference on every list of 8-bit values. -/
theorem crc8_eq_spec (l : List Nat) (hl : ∀ b ∈ l, b < 256) : crc8 l = crc8Spec l := by
  unfold crc8 crc8Spec
  rw [foldl_crc_mask l hl 0xFF]
  have h : (0xFF &&& 0xFF : Nat) = 0xFF := by decide
  rw [h]

/-- Assembling a big-endian 16-bit word: when the low byte is below 256, the
shift-or in the source equals multiplication plus addition. -/
theorem beWord_eq (hi lo : Nat) (h : lo < 256) : hi <<< 8 ||| lo = hi * 256 + lo := by
  have h2 : lo < 2 ^ 8 := by norm_num [h]
  have h3 := Nat.mul_add_lt_is_or h2 hi
  rw [Nat.shiftLeft_eq]
  calc hi * 2 ^ 8 ||| lo = 2 ^ 8 * hi ||| lo := by rw [Nat.mul_comm]
    _ = 2 ^ 8 * hi + lo := h3.symm
    _ = hi * 256 + lo := by norm_num [Nat.mul_comm]

/-- Unfolding `read_temperature_humidity` when the temperature CRC fails. -/
theorem rth_temp_crc_fail (f : Frame6) (h : f.b2 ≠ crc8 [f.b0, f.b1]) :
    read_temperature_humidity f = (none, none) := by
  simp [read_temperature_humidity, h]

/-- Unfolding `read_temperature_humidity` when the humidity CRC fails: the
result is the sentinel pair whatever the temperature triplet contained. -/
theorem rth_hum_crc_fail (f : Frame6) (h : f.b5 ≠ crc8 [f.b3, f.b4]) :
    read_temperature_humidity f = (none, none) := by
  by_cases h2 : f.b2 = crc8 [f.b0, f.b1]
  · simp [read_temperature_humidity, h2, h]
  · simp [read_temperature_humidity, h2]

/-- Unfolding `read_temperature_humidity` when both CRC checks pass. -/
theorem rth_valid (f : Frame6) (h2 : f.b2 = crc8 [f.b0, f.b1])
    (h5 : f.b5 = crc8 [f.b3, f.b4]) :
    read_temperature_humidity f =
      (some (175 * ((f.b0 <<< 8 ||| f.b1 : Nat) : ℚ) / 0xFFFF - 45),
       some (100 * ((f.b3 <<< 8 ||| f.b4 : Nat) : ℚ) / 0xFFFF)) := by
  simp [read_temperature_humidity, h2, h5]

/-! Claim theorems. -/

/-- C2: on every sequence of 8-bit values, `_crc8` equals the reference CRC-8
with polynomial 0x31, initial register 0xFF, most-significant-bit-first, no
reflection and no final XOR; it is deterministic, and the empty sequence
yields 0xFF. -/
theorem c2_crc8_matches_reference (l : List Nat) (hl : ∀ b ∈ l, b < 256) :
    crc8 l = crc8Spec l ∧ crc8 l = crc8 l ∧ crc8 [] = 0xFF :=
  ⟨crc8_eq_spec l hl, rfl, by decide⟩

/-- Witness for C2 at the datasheet example input [0xBE, 0xEF]. -/
theorem c2_crc8_matches_reference_witness :
    (∀ b ∈ [0xBE, 0xEF], b < 256) ∧
    (crc8 [0xBE, 0xEF] = crc8Spec [0xBE, 0xEF] ∧
     crc8 [0xBE, 0xEF] = crc8 [0xBE, 0xEF] ∧ crc8 [] = 0xFF) :=
  ⟨by decide, c2_crc8_matches_reference [0xBE, 0xEF] (by decide)⟩

/-- C4: `read_status` returns the big-endian word of bytes [0,1] exactly when
byte [2] equals the CRC of bytes [0,1], and returns `none` on mismatch (so a
failed CRC never yields a zero word). -/
theorem c4_read_status_fail_closed (f : Frame3) :
    (f.b1 < 256 → (read_status f = some (f.b0 * 256 + f.b1) ↔ f.b2 = crc8 [f.b0, f.b1])) ∧
    (f.b2 ≠ crc8 [f.b0, f.b1] → read_status f = none) := by
  constructor
  · intro hb1
    constructor
    · intro hsome
      by_contra hne
      simp [read_status, hne] at hsome
    · intro heq
      simp [read_status, heq, beWord_eq f.b0 f.b1 hb1]
  · intro hne
    simp [read_status, hne]

/-- Witness for C4 at a concrete valid status frame. -/
theorem c4_read_status_fail_closed_witness :
    (0x02 : Nat) < 256 ∧
    (read_status ⟨0x01, 0x02, crc8 [0x01, 0x02]⟩ = some (0x01 * 256 + 0x02) ↔
      (crc8 [0x01, 0x02] : Nat) = crc8 [0x01, 0x02]) :=
  ⟨by decide, (c4_read_status_fail_closed ⟨0x01, 0x02, crc8 [0x01, 0x02]⟩).1 (by decide)⟩

/-- C5: when the status read fails its CRC, every dependent predicate
propagates the failure (none) rather than returning false; when it succeeds,
each predicate is exactly the test of its mask bit in the status word. -/
theorem c5_predicates_share_status_semantics (f : Frame3) :
    (read_status f = none →
      is_data_crc_error f = none ∧ is_command_error f = none ∧
      is_reset_detected f = none ∧ is_tracking_temperature_alert f = none ∧
      is_tracking_humidity_alert f = none ∧ is_heater_active f = none ∧
      is_alert_pending f = none) ∧
    (∀ stat, read_status f = some stat →
      is_data_crc_error f = some ((stat &&& SHT31_STATUS_DATA_CRC_ERROR) != 0) ∧
      is_command_error f = some ((stat &&& SHT31_STATUS_COMMAND_ERROR) != 0) ∧
      is_reset_detected f = some ((stat &&& SHT31_STATUS_RESET_DETECTED) != 0) ∧
      is_tracking_temperature_alert f =
        some ((stat &&& SHT31_STATUS_TEMPERATURE_ALERT) != 0) ∧
      is_tracking_humidity_alert f = some ((stat &&& SHT31_STATUS_HUMIDITY_ALERT) != 0) ∧
      is_heater_active f = some ((stat &&& SHT31_STATUS_HEATER_ACTIVE) != 0) ∧
      is_alert_pending f = some ((stat &&& SHT31_STATUS_ALERT_PENDING) != 0)) := by
  constructor
  · intro h
    simp [is_data_crc_error, is_command_error, is_reset_detected,
          is_tracking_temperature_alert, is_tracking_humidity_alert,
          is_heater_active, is_alert_pending, statusBit, h]
  · intro stat h
    simp [is_data_crc_error, is_command_error, is_reset_detected,
          is_tracking_temperature_alert, is_tracking_humidity_alert,
          is_heater_active, is_alert_pending, statusBit, h]

/-- Witness for C5: a valid frame carrying status word 0x2000 makes
`is_heater_active` return `some true`. -/
theorem c5_predicates_share_status_semantics_witness :
    read_status ⟨0x20, 0x00, 93⟩ = some 0x2000 ∧
    is_heater_active ⟨0x20, 0x00, 93⟩ = some true := by
  have h := (c5_predicates_share_status_semantics ⟨0x20, 0x00, 93⟩).2 0x2000 (by decide)
  exact ⟨by decide, by rw [h.2.2.2.2.2.1]; decide⟩

/-- C6: writing any 16-bit command transmits exactly two bytes, the high byte
as the register selector and the low byte as the data byte, and the two bytes
reconstruct the opcode; `read_temperature_humidity` writes MeasureHighRep as
0x24 / 0x00, sleeps, then issues one 6-byte block read at register 0. -/
theorem c6_write_command_two_bytes (address cmd : Nat) (h : cmd < 0x10000) :
    writeCommandTrace address cmd = [.write address (cmd / 256) (cmd % 256)] ∧
    cmd / 256 < 256 ∧ cmd % 256 < 256 ∧ (cmd / 256) * 256 + cmd % 256 = cmd ∧
    read_temperature_humidity_trace address =
      [.write address 0x24 0x00, .sleepMs 15, .readBlock address 0 6] := by
  refine ⟨?_, by omega, by omega, by omega, ?_⟩
  · unfold writeCommandTrace
    rw [Nat.shiftRight_eq_div_pow, and255_eq_mod]
  · unfold read_temperature_humidity_trace writeCommandTrace SHT31_MEAS_HIGHREP
    have h1 : (0x2400 : Nat) >>> 8 = 0x24 := by decide
    have h2 : (0x2400 : Nat) &&& 0xFF = 0x00 := by decide
    rw [h1, h2]
    rfl

/-- Witness for C6 at the MeasureHighRep opcode and the default address. -/
theorem c6_write_command_two_bytes_witness :
    writeCommandTrace 0x44 0x2400 = [.write 0x44 (0x2400 / 256) (0x2400 % 256)] ∧
    (0x2400 : Nat) / 256 < 256 ∧ (0x2400 : Nat) % 256 < 256 ∧
    ((0x2400 : Nat) / 256) * 256 + 0x2400 % 256 = 0x2400 ∧
    read_temperature_humidity_trace 0x44 =
      [.write 0x44 0x24 0x00, .sleepMs 15, .readBlock 0x44 0 6] :=
  c6_write_command_two_bytes 0x44 0x2400 (by decide)

/-- C7: `read_temperature` and `read_humidity` are exactly the two components
of the full combined read, and each performs the identical bus sequence (the
full 6-byte read), with no lighter single-field command sequence. -/
theorem c7_single_field_is_full_read (f : Frame6) (address : Nat) :
    read_temperature f = (read_temperature_humidity f).1 ∧
    read_humidity f = (read_temperature_humidity f).2 ∧
    read_temperature_trace address = read_temperature_humidity_trace address ∧
    read_humidity_trace address = read_temperature_humidity_trace address :=
  ⟨rfl, rfl, rfl, rfl⟩

/-- C9: `get_measurement` always raises a TypeError (it unpacks the bound
method object `sensor.read_temperature_humidity` without calling it), leaves
the module state untouched, and produces no bus traffic. -/
theorem c9_get_measurement_raises_type_error (st : AppState) (now : Nat) :
    get_measurement st now = (.error .typeError, st, []) :=
  rfl

/-- C10: the `i2c` constructor argument is ignored: any two values produce
identical driver state, and the device bus is always `I2C_DEVICE_BUS` = 1. -/
theorem c10_i2c_argument_ignored (a i j : Nat) :
    init a i = init a j ∧ (init a i).deviceBus = I2C_DEVICE_BUS ∧ I2C_DEVICE_BUS = 1 :=
  ⟨rfl, rfl, rfl⟩

/-- C1 counterexample: the example frame given in the spec — temperature bytes
[0x62, 0x4D] with matching CRC byte 124, humidity bytes [0x00, 0x00] with a
deliberately corrupted CRC byte (130 instead of 129) — decodes to the NaN
sentinel for BOTH fields, not to a finite temperature with NaN humidity:
the source returns `(nan, nan)` whenever either triplet fails its CRC. -/
theorem c1_counterexample_both_fields_nan :
    (124 : Nat) = crc8 [0x62, 0x4D] ∧
    (130 : Nat) ≠ crc8 [0x00, 0x00] ∧
    read_temperature_humidity ⟨0x62, 0x4D, 124, 0x00, 0x00, 130⟩ = (none, none) := by
  refine ⟨by decide, by decide, ?_⟩
  decide

/-- C1 amended: the two CRC validations are not independent. A temperature
CRC mismatch yields the sentinel pair without consulting the humidity
triplet, a humidity CRC mismatch ALSO yields the sentinel pair (even when
the temperature CRC matched), and only a frame passing both checks decodes
both fields. -/
theorem c1_amended_either_crc_failure_nans_both (f : Frame6) :
    (f.b2 ≠ crc8 [f.b0, f.b1] → read_temperature_humidity f = (none, none)) ∧
    (f.b5 ≠ crc8 [f.b3, f.b4] → read_temperature_humidity f = (none, none)) ∧
    (f.b2 = crc8 [f.b0, f.b1] → f.b5 = crc8 [f.b3, f.b4] →
      read_temperature_humidity f =
        (some (175 * ((f.b0 <<< 8 ||| f.b1 : Nat) : ℚ) / 0xFFFF - 45),
         some (100 * ((f.b3 <<< 8 ||| f.b4 : Nat) : ℚ) / 0xFFFF))) := by
  exact ⟨rth_temp_crc_fail f, rth_hum_crc_fail f, rth_valid f⟩

/-- Witness for the amended C1 at the example frame from the spec, repaired to pass
both CRC checks. -/
theorem c1_amended_either_crc_failure_nans_both_witness :
    (124 : Nat) = crc8 [0x62, 0x4D] ∧ (129 : Nat) = crc8 [0x00, 0x00] ∧
    read_temperature_humidity ⟨0x62, 0x4D, 124, 0x00, 0x00, 129⟩ =
      (some (175 * ((0x62 <<< 8 ||| 0x4D : Nat) : ℚ) / 0xFFFF - 45),
       some (100 * ((0x00 <<< 8 ||| 0x00 : Nat) : ℚ) / 0xFFFF)) :=
  ⟨by decide, by decide,
   (c1_amended_either_crc_failure_nans_both ⟨0x62, 0x4D, 124, 0x00, 0x00, 129⟩).2.2
     (by decide) (by decide)⟩

/-- C3: on every frame passing both CRC checks, the decoded temperature is
175·raw_t/65535 − 45 and the decoded humidity is 100·raw_h/65535, with raw_t
and raw_h the big-endian words of bytes [0,1] and [3,4]; the raw endpoints
0x0000 and 0xFFFF decode to −45 °C / 130 °C and 0 %RH / 100 %RH. -/
theorem c3_decode_formulas :
    (∀ f : Frame6, f.b2 = crc8 [f.b0, f.b1] → f.b5 = crc8 [f.b3, f.b4] →
      f.b1 < 256 → f.b4 < 256 →
      read_temperature_humidity f =
        (some (175 * ((f.b0 * 256 + f.b1 : Nat) : ℚ) / 65535 - 45),
         some (100 * ((f.b3 * 256 + f.b4 : Nat) : ℚ) / 65535))) ∧
    read_temperature_humidity ⟨0x00, 0x00, 129, 0x00, 0x00, 129⟩ = (some (-45), some 0) ∧
    read_temperature_humidity ⟨0xFF, 0xFF, 172, 0xFF, 0xFF, 172⟩ = (some 130, some 100) := by
  refine ⟨?_, ?_, ?_⟩
  · intro f h2 h5 hb1 hb4
    rw [rth_valid f h2 h5, beWord_eq f.b0 f.b1 hb1, beWord_eq f.b3 f.b4 hb4]
    norm_cast
  · rw [rth_valid ⟨0x00, 0x00, 129, 0x00, 0x00, 129⟩ (by decide) (by decide)]
    have hz : (0x00 <<< 8 ||| 0x00 : Nat) = 0 := by decide
    rw [hz]
    norm_num
  · rw [rth_valid ⟨0xFF, 0xFF, 172, 0xFF, 0xFF, 172⟩ (by decide) (by decide)]
    have hm : (0xFF <<< 8 ||| 0xFF : Nat) = 65535 := by decide
    rw [hm]
    norm_num

/-- Witness for C3 at the all-zero frame with valid CRC bytes. -/
theorem c3_decode_formulas_witness :
    (129 : Nat) = crc8 [0x00, 0x00] ∧ (0x00 : Nat) < 256 ∧
    read_temperature_humidity ⟨0x00, 0x00, 129, 0x00, 0x00, 129⟩ =
      (some (175 * ((0x00 * 256 + 0x00 : Nat) : ℚ) / 65535 - 45),
       some (100 * ((0x00 * 256 + 0x00 : Nat) : ℚ) / 65535)) :=
  ⟨by decide, by decide,
   c3_decode_formulas.1 ⟨0x00, 0x00, 129, 0x00, 0x00, 129⟩
     (by decide) (by decide) (by decide) (by decide)⟩

/-- C8: the code, not the claim, is at fault. Both single-field routes call
`get_measurement`, which raises a TypeError on every invocation, so neither
ever produces the claimed JSON document; moreover the success path of
`get_measurement` stores the pair swapped as (humidity, temperature) while
`get_temperature` indexes position 0, so even with the call repaired the
temperature field would carry the humidity component. -/
theorem c8_routes_never_return_json (st : AppState) (now : Nat) (sensor_name : String) :
    (get_temperature st now sensor_name).1 = Except.error PyError.typeError ∧
    (get_humidity st now sensor_name).1 = Except.error PyError.typeError :=
  ⟨rfl, rfl⟩

end Curer
